import Mathlib

/-!
Verification development for the screen-overlay assistant.

Shallow embedding of the privacy/window-affinity subsystem (`utils.py`,
`OverlayWindow.apply_privacy` in `main.py`) and of the analysis pipeline
(`api_client.py`, `worker.py`).

Modelling conventions:
  * WinAPI calls are an oracle (`OS`): each ctypes call either raises (a
    Boolean flag in the oracle) or returns the oracle-determined value.
    A raising call is atomic: it performs no state mutation.
  * The per-window OS state (extended-style bitmask, display affinity)
    is threaded explicitly through each embedded function.
  * Python `print` diagnostics are collected as a list of `LogMsg`.
  * Python exceptions inside the embedded code become `Except`/`Option`
    values exactly where the source has `try`/`except`.
-/

set_option linter.unusedVariables false

/-! ## Constants from `utils.py` -/

def GWL_EXSTYLE : Int := -20

def WS_EX_LAYERED : Nat := 0x00080000

def WDA_NONE : Nat := 0x00000000

def WDA_MONITOR : Nat := 0x00000001

def WDA_EXCLUDEFROMCAPTURE : Nat := 0x00000011

/-! ## OS oracle and window state -/

/-- Per-window OS-visible state: the extended-style bitmask read/written via
`GetWindowLongPtrW`/`SetWindowLongPtrW` at `GWL_EXSTYLE`, and the display
affinity set by `SetWindowDisplayAffinity`. Bitmasks are DWORD values, hence
non-negative, modelled as `Nat`. -/
structure WinState where
  exstyle : Nat
  affinity : Nat
deriving DecidableEq, Repr

/-- Oracle for the WinAPI surface used by `utils.py`.
`affinityResult hwnd a` tells whether `SetWindowDisplayAffinity(hwnd, a)`
returns nonzero; `affinityRaises hwnd a` whether that ctypes call raises.
`getLongRaises`/`setLongRaises` model `GetWindowLongPtrW`/`SetWindowLongPtrW`
raising; a raising call mutates nothing. `lastError` is what
`GetLastError()` reports after a failed call. -/
structure OS where
  isWindows : Bool
  affinityResult : Int → Nat → Bool
  affinityRaises : Int → Nat → Bool
  getLongRaises : Bool
  setLongRaises : Bool
  lastError : Nat

/-- Diagnostics printed by `set_window_affinity`, as structured messages. -/
inductive LogMsg where
  | notSupported
  | failedAffinity (code : Nat)
  | attemptFallback
  | failedMonitor (code : Nat)
  | fallbackSuccess
  | affinityException
deriving DecidableEq, Repr

/-! ## `utils.py` -/

/-- Embeds `clear_ws_ex_layered(hwnd)` (utils.py:105-130).
Reads the current exstyle; if `WS_EX_LAYERED` is set, clears it (Python
`prev & ~WS_EX_LAYERED`; on the non-negative bitmask this equals
`prev - (prev &&& WS_EX_LAYERED)`) and returns the previous exstyle.
Any exception is caught and `None` is returned; a raising WinAPI call is
atomic, so the state is unchanged on that path. -/
def clear_ws_ex_layered (os : OS) (hwnd : Int) (s : WinState) :
    Option Nat × WinState :=
  if os.getLongRaises then (none, s)
  else
    let prev := s.exstyle
    if prev &&& WS_EX_LAYERED ≠ 0 then
      if os.setLongRaises then (none, s)
      else (some prev, { s with exstyle := prev - (prev &&& WS_EX_LAYERED) })
    else (some prev, s)

/-- Embeds `restore_exstyle(hwnd, prev_exstyle)` (utils.py:133-151).
Returns `false` without mutation when `prev_exstyle` is `None` or the
`SetWindowLongPtrW` call raises; otherwise writes the saved bitmask back. -/
def restore_exstyle (os : OS) (hwnd : Int) (prev_exstyle : Option Nat)
    (s : WinState) : Bool × WinState :=
  match prev_exstyle with
  | none => (false, s)
  | some p =>
    if os.setLongRaises then (false, s)
    else (true, { s with exstyle := p })

/-- Embeds `set_window_affinity(hwnd, allow_capture)` (utils.py:27-80).
Non-Windows platforms bail out before any OS call. Otherwise the affinity
is chosen (`WDA_NONE` when capture is allowed, else
`WDA_EXCLUDEFROMCAPTURE`), the call is attempted, and on failure with
`allow_capture=False` a single fallback to `WDA_MONITOR` is attempted.
A raising ctypes call lands in the outer `except` and yields `False`.
Returns (success, printed diagnostics, new window state). -/
def set_window_affinity (os : OS) (hwnd : Int) (allow_capture : Bool)
    (s : WinState) : Bool × List LogMsg × WinState :=
  if os.isWindows = false then (false, [.notSupported], s)
  else
    let affinity := if allow_capture then WDA_NONE else WDA_EXCLUDEFROMCAPTURE
    if os.affinityRaises hwnd affinity then (false, [.affinityException], s)
    else if os.affinityResult hwnd affinity then
      (true, [], { s with affinity := affinity })
    else
      if allow_capture = false then
        if os.affinityRaises hwnd WDA_MONITOR then
          (false, [.failedAffinity os.lastError, .attemptFallback,
                   .affinityException], s)
        else if os.affinityResult hwnd WDA_MONITOR then
          (true, [.failedAffinity os.lastError, .attemptFallback,
                  .fallbackSuccess], { s with affinity := WDA_MONITOR })
        else
          (false, [.failedAffinity os.lastError, .attemptFallback,
                   .failedMonitor os.lastError], s)
      else (false, [.failedAffinity os.lastError], s)

/-! ## `OverlayWindow.apply_privacy` (main.py:201-253) -/

/-- UI-side state of the overlay window: the OS window state plus the Qt
attributes `apply_privacy` touches (`WA_TranslucentBackground`, window
opacity, status-label text). Opacity is an exact rational stand-in for the
Python float; `apply_privacy` only stores and restores it. -/
structure AppState where
  win : WinState
  translucent : Bool
  opacity : Rat
  statusText : String
deriving DecidableEq, Repr

def privacyOnStatus : String := "Ready (Privacy On) - Ctrl+Alt+S"

def privacyFailStatus : String := "Ready (Privacy Fail) - Ctrl+Alt+S"

/-- Embeds `OverlayWindow.apply_privacy` (main.py:201-253).
Clears `WS_EX_LAYERED`, attempts `set_window_affinity(hwnd, False)`; on
success restores the saved exstyle and returns. Otherwise it retries with
translucency disabled and opacity 1.0 inside a `try`/`finally` whose
`finally` restores the originally saved exstyle and the saved Qt
attributes on every exit path of the retry. -/
def apply_privacy (os : OS) (hwnd : Int) (s0 : AppState) : AppState :=
  let r1 := clear_ws_ex_layered os hwnd s0.win
  let prev_exstyle := r1.1
  let a1 := set_window_affinity os hwnd false r1.2
  let success := a1.1
  let s1 : AppState := { s0 with win := a1.2.2 }
  let s2 := if success then { s1 with statusText := privacyOnStatus } else s1
  if success then
    let r2 := restore_exstyle os hwnd prev_exstyle s2.win
    { s2 with win := r2.2 }
  else
    let prev_translucent := s2.translucent
    let prev_opacity := s2.opacity
    let s3 : AppState := { s2 with translucent := false, opacity := 1 }
    let r3 := clear_ws_ex_layered os hwnd s3.win
    let prev_exstyle_2 := r3.1
    let a2 := set_window_affinity os hwnd false r3.2
    let success2 := a2.1
    let s4 : AppState := { s3 with win := a2.2.2 }
    if success2 then
      let s5 : AppState := { s4 with statusText := privacyOnStatus }
      let r4 := restore_exstyle os hwnd prev_exstyle_2 s5.win
      let r5 := restore_exstyle os hwnd prev_exstyle r4.2
      { s5 with win := r5.2, translucent := prev_translucent,
                opacity := prev_opacity }
    else
      let s5 : AppState := { s4 with statusText := privacyFailStatus }
      let r4 := restore_exstyle os hwnd prev_exstyle s5.win
      { s5 with win := r4.2, translucent := prev_translucent,
                opacity := prev_opacity }

/-! ## Streaming completion model (`api_client.py`) -/

/-- One streamed chunk's delta: `delta.content` may be absent. -/
structure Delta where
  content : Option String
deriving DecidableEq, Repr

/-- One choice of a streamed chunk: `delta` may be `None`. -/
structure Choice where
  delta : Option Delta
deriving DecidableEq, Repr

/-- One streamed chunk. `choices = none` models a chunk object without a
`choices` attribute (the `hasattr` guard); `some []` an empty list. -/
structure Chunk where
  choices : Option (List Choice)
deriving DecidableEq, Repr

/-- One iteration of the accumulation loop (api_client.py:60-64 and
98-102): a fragment is appended only when the chunk has a non-empty
`choices` list, its first choice has a delta, and `delta.content` is
truthy (present and non-empty). -/
def accum_step (acc : String) (chunk : Chunk) : String :=
  match chunk.choices with
  | some (c :: _) =>
    match c.delta with
    | some d =>
      match d.content with
      | some t => if t = "" then acc else acc ++ t
      | none => acc
    | none => acc
  | _ => acc

/-- The full accumulation loop: `response_text = ""` then `+=` per chunk. -/
def accumulate_stream (stream : List Chunk) : String :=
  stream.foldl accum_step ""

/-! ## Request payloads and transport oracle -/

/-- One entry of a message's `content` list in the image request. -/
inductive ContentPart where
  | text (t : String)
  | image_url (url : String)
deriving DecidableEq, Repr

/-- A message's `content`: a plain string (text-only request) or a list
of tagged parts (image request). -/
inductive MsgContent where
  | str (s : String)
  | parts (ps : List ContentPart)
deriving DecidableEq, Repr

structure Message where
  role : String
  content : MsgContent
deriving DecidableEq, Repr

/-- The messages payload built by `analyze_image` (api_client.py:37-50). -/
def analyze_messages (prompt img_str : String) : List Message :=
  [⟨"user", .parts [.text prompt,
                    .image_url ("data:image/png;base64," ++ img_str)]⟩]

/-- The messages payload built by `send_text_prompt` (api_client.py:83-88):
the prompt with the literal suffix appended. -/
def text_messages (prompt : String) : List Message :=
  [⟨"user", .str (prompt ++ "concisely.")⟩]

/-- The streamed response the transport hands back when `create` itself
does not raise: the chunks the iterator yields, and — when `failure` is
set — the message of an exception raised mid-stream after those chunks. -/
structure StreamResponse where
  chunks : List Chunk
  failure : Option String
deriving DecidableEq, Repr

/-- Oracle for `self.client.chat.completions.create(...)`: either raises
(`Except.error` with the exception text) or returns a stream. -/
structure Transport where
  create : List Message → Except String StreamResponse

/-- Opaque stand-in for a PIL image. -/
structure Image where
  id : Nat
deriving DecidableEq, Repr

/-- Oracle for PNG-encoding + base64 (api_client.py:32-34): yields the
base64 string, or the message of an exception raised while encoding. -/
def Encoder : Type := Image → Except String String

/-! ## `APIClient` -/

/-- Python truthiness of an optional string: `None` and `""` are falsy. -/
def truthyStr : Option String → Bool
  | none => false
  | some s => ¬ (s = "")

/-- Python `a or b` on optional strings (api_client.py:12). -/
def py_or (a b : Option String) : Option String :=
  if truthyStr a then a else b

def missingKeyMsg : String :=
  "Together API Key is missing. Please set TOGETHER_API_KEY in .env or pass it to constructor."

def defaultModel : String :=
  "meta-llama/Llama-4-Maverick-17B-128E-Instruct-FP8"

structure APIClient where
  api_key : String
  model : String
deriving DecidableEq, Repr

/-- Embeds `APIClient.__init__(api_key)` (api_client.py:11-18) with the
process environment's `TOGETHER_API_KEY` passed explicitly. Raises
`ValueError` (the `Except.error`) when the resolved key is falsy, before
any network activity. -/
def APIClient.make (api_key envKey : Option String) :
    Except String APIClient :=
  let key := py_or api_key envKey
  if truthyStr key then .ok ⟨key.getD "", defaultModel⟩
  else .error missingKeyMsg

/-- Embeds `APIClient.analyze_image(image, prompt)` (api_client.py:20-69).
Everything runs inside one `try`: encoding, the transport call, and the
accumulation loop; any exception is caught and turned into the
`"Error analyzing image: ..."` string. -/
def analyze_image (t : Transport) (enc : Encoder) (image : Image)
    (prompt : String) : String :=
  match enc image with
  | .error e => "Error analyzing image: " ++ e
  | .ok img_str =>
    match t.create (analyze_messages prompt img_str) with
    | .error e => "Error analyzing image: " ++ e
    | .ok resp =>
      match resp.failure with
      | some e => "Error analyzing image: " ++ e
      | none => accumulate_stream resp.chunks

/-- Embeds `APIClient.send_text_prompt(prompt)` (api_client.py:71-107).
Same shape as `analyze_image` but with a text-only payload and the
`"Error sending prompt: ..."` failure string. -/
def send_text_prompt (t : Transport) (prompt : String) : String :=
  match t.create (text_messages prompt) with
  | .error e => "Error sending prompt: " ++ e
  | .ok resp =>
    match resp.failure with
    | some e => "Error sending prompt: " ++ e
    | none => accumulate_stream resp.chunks

/-! ## `AnalysisWorker.run` (worker.py:14-29) -/

/-- A Qt signal emission observed by the UI. -/
inductive Emission where
  | finished (s : String)
  | error (s : String)
deriving DecidableEq, Repr

/-- Embeds `AnalysisWorker.run` for a worker freshly constructed with
`image`/`prompt` (so `self.api_client` is `None` on entry): construct the
client, dispatch on the image's truthiness, emit `finished` with the
result; any exception escaping inside `run` is caught and emitted on the
`error` signal. The return value is the ordered list of emissions. -/
def AnalysisWorker.run (t : Transport) (enc : Encoder)
    (api_key envKey : Option String) (image : Option Image)
    (prompt : String) : List Emission :=
  match APIClient.make api_key envKey with
  | .error e => [.error e]
  | .ok _client =>
    match image with
    | some img => [.finished (analyze_image t enc img prompt)]
    | none => [.finished (send_text_prompt t prompt)]

/-! ## Witness configurations -/

/-- Windows oracle where the strong exclusion mode fails and the
`WDA_MONITOR` fallback succeeds; no ctypes call raises. -/
def osFallback : OS :=
  { isWindows := true
    affinityResult := fun _ a => a == WDA_MONITOR
    affinityRaises := fun _ _ => false
    getLongRaises := false
    setLongRaises := false
    lastError := 5 }

/-- Windows oracle where every affinity call fails (without raising). -/
def osAllFail : OS :=
  { isWindows := true
    affinityResult := fun _ _ => false
    affinityRaises := fun _ _ => false
    getLongRaises := false
    setLongRaises := false
    lastError := 50 }

/-- Non-Windows oracle: the `windll` surface does not exist, so window-long
calls raise. -/
def osLinux : OS :=
  { isWindows := false
    affinityResult := fun _ _ => true
    affinityRaises := fun _ _ => false
    getLongRaises := true
    setLongRaises := true
    lastError := 0 }

def sampleApp : AppState :=
  { win := { exstyle := 0x80100, affinity := WDA_NONE }
    translucent := true
    opacity := 0.9
    statusText := "Ready (Ctrl+Alt+S)" }

/-- A well-formed streamed chunk carrying the text fragment `t`. -/
def mkChunk (t : String) : Chunk := ⟨some [⟨some ⟨some t⟩⟩]⟩

/-- Modelled from the spec: the text fragment one streamed chunk carries
(empty when the chunk has no usable content), for comparing the code's
accumulation loop against in-order concatenation of fragments. -/
def chunk_fragment (c : Chunk) : String :=
  match c.choices with
  | some (ch :: _) =>
    match ch.delta with
    | some d =>
      match d.content with
      | some t => t
      | none => ""
    | none => ""
  | _ => ""

/-- Modelled from the spec: in-order concatenation of a fragment list,
with no reordering and no deduplication. -/
def concat_frags (frags : List String) : String :=
  frags.foldl (fun a b => a ++ b) ""

/-- The transport call for payload `msgs` fails with exception text `e`:
either `create` itself raises, or the stream raises mid-iteration after
yielding some chunks. -/
def streamFails (t : Transport) (msgs : List Message) (e : String) : Prop :=
  t.create msgs = .error e ∨
  ∃ resp, t.create msgs = .ok resp ∧ resp.failure = some e

/-- Transport whose stream yields one chunk and then raises. -/
def tFailMid : Transport :=
  { create := fun _ =>
      .ok { chunks := [mkChunk "par"], failure := some "connection reset" } }

/-- Transport that streams the two fragments of the spec example. -/
def tHello : Transport :=
  { create := fun _ =>
      .ok { chunks := [mkChunk "Hel", mkChunk "lo"], failure := none } }

/-- Encoder that succeeds with a fixed base64 payload. -/
def encOK : Encoder := fun _ => .ok "QUJD"

/-- Encoder that raises while saving/encoding the image. -/
def encBad : Encoder := fun _ => .error "cannot identify image file"

def sampleImage : Image := ⟨1⟩

/-! ## Claim theorems: privacy subsystem -/

/-- C1: for every window handle and every WinAPI oracle, `apply_privacy`
(with `clear_ws_ex_layered`/`restore_exstyle`) leaves the window's
extended-style bitmask exactly equal to its pre-call value after
returning, on every exit path: first-attempt success, retry success,
failure, or a raising WinAPI call. -/
theorem apply_privacy_preserves_exstyle (os : OS) (hwnd : Int) (s : AppState) :
    (apply_privacy os hwnd s).win.exstyle = s.win.exstyle := by
  cases hg : os.getLongRaises <;> cases hs : os.setLongRaises <;>
    cases hw : os.isWindows <;>
    cases hr1 : os.affinityRaises hwnd WDA_EXCLUDEFROMCAPTURE <;>
    cases ha1 : os.affinityResult hwnd WDA_EXCLUDEFROMCAPTURE <;>
    cases hr2 : os.affinityRaises hwnd WDA_MONITOR <;>
    cases ha2 : os.affinityResult hwnd WDA_MONITOR <;>
    by_cases hl : s.win.exstyle &&& WS_EX_LAYERED ≠ 0 <;>
    simp [apply_privacy, clear_ws_ex_layered, set_window_affinity,
          restore_exstyle, hg, hs, hw, hr1, ha1, hr2, ha2, hl]

/-- C3: on Windows, when the affinity call fails with
`WDA_EXCLUDEFROMCAPTURE` but succeeds with `WDA_MONITOR`,
`set_window_affinity(hwnd, allow_capture=False)` returns `True` and its
diagnostics record the fallback success; when both modes fail it returns
`False`. -/
theorem set_window_affinity_fallback (os : OS) (hwnd : Int) (s : WinState)
    (hw : os.isWindows = true)
    (hr1 : os.affinityRaises hwnd WDA_EXCLUDEFROMCAPTURE = false)
    (hf1 : os.affinityResult hwnd WDA_EXCLUDEFROMCAPTURE = false)
    (hr2 : os.affinityRaises hwnd WDA_MONITOR = false) :
    (os.affinityResult hwnd WDA_MONITOR = true →
      (set_window_affinity os hwnd false s).1 = true ∧
      LogMsg.fallbackSuccess ∈ (set_window_affinity os hwnd false s).2.1) ∧
    (os.affinityResult hwnd WDA_MONITOR = false →
      (set_window_affinity os hwnd false s).1 = false) := by
  constructor <;> intro h <;>
    simp [set_window_affinity, hw, hr1, hf1, hr2, h]

theorem set_window_affinity_fallback_witness :
    ((set_window_affinity osFallback 7 false ⟨0, 0⟩).1 = true ∧
     LogMsg.fallbackSuccess ∈ (set_window_affinity osFallback 7 false ⟨0, 0⟩).2.1) ∧
    (set_window_affinity osAllFail 7 false ⟨0, 0⟩).1 = false :=
  ⟨(set_window_affinity_fallback osFallback 7 ⟨0, 0⟩ (by decide) (by decide)
      (by decide) (by decide)).1 (by decide),
   (set_window_affinity_fallback osAllFail 7 ⟨0, 0⟩ (by decide) (by decide)
      (by decide) (by decide)).2 (by decide)⟩

/-- C9: with `allow_capture=True` (re-enabling capture via `WDA_NONE`), a
failed affinity call returns `False` with no `WDA_MONITOR` fallback
attempt; the fallback path is reachable only with `allow_capture=False`. -/
theorem set_window_affinity_no_fallback_when_allowed (os : OS) (hwnd : Int)
    (s : WinState) (hw : os.isWindows = true)
    (hf : os.affinityResult hwnd WDA_NONE = false) :
    ((set_window_affinity os hwnd true s).1 = false ∧
     LogMsg.attemptFallback ∉ (set_window_affinity os hwnd true s).2.1) ∧
    (∀ ac : Bool,
      LogMsg.attemptFallback ∈ (set_window_affinity os hwnd ac s).2.1 →
      ac = false) := by
  refine ⟨?_, ?_⟩
  · cases hr : os.affinityRaises hwnd WDA_NONE <;>
      simp [set_window_affinity, hw, hf, hr]
  · intro ac hmem
    cases ac
    · rfl
    · exfalso
      revert hmem
      cases hr : os.affinityRaises hwnd WDA_NONE <;>
        cases hres : os.affinityResult hwnd WDA_NONE <;>
        simp [set_window_affinity, hw, hr, hres]

theorem set_window_affinity_no_fallback_witness :
    ((set_window_affinity osAllFail 7 true ⟨0, 0⟩).1 = false ∧
     LogMsg.attemptFallback ∉ (set_window_affinity osAllFail 7 true ⟨0, 0⟩).2.1) ∧
    (∀ ac : Bool,
      LogMsg.attemptFallback ∈ (set_window_affinity osAllFail 7 ac ⟨0, 0⟩).2.1 →
      ac = false) :=
  set_window_affinity_no_fallback_when_allowed osAllFail 7 ⟨0, 0⟩
    (by decide) (by decide)

/-- C4: on a non-Windows platform (where the `windll` surface does not
exist, so window-long calls raise), `set_window_affinity` reports
unsupported and returns `False` without touching the window state, and the
whole `apply_privacy` operation leaves the OS window state (extended style
and display affinity) unchanged. -/
theorem non_windows_no_mutation (os : OS) (hwnd : Int) (s : AppState)
    (hw : os.isWindows = false)
    (hg : os.getLongRaises = true) :
    set_window_affinity os hwnd false s.win = (false, [.notSupported], s.win) ∧
    (apply_privacy os hwnd s).win = s.win := by
  refine ⟨by simp [set_window_affinity, hw], ?_⟩
  simp [apply_privacy, clear_ws_ex_layered, set_window_affinity,
        restore_exstyle, hw, hg]

theorem non_windows_no_mutation_witness :
    set_window_affinity osLinux 7 false sampleApp.win
      = (false, [.notSupported], sampleApp.win) ∧
    (apply_privacy osLinux 7 sampleApp).win = sampleApp.win :=
  non_windows_no_mutation osLinux 7 sampleApp (by decide) (by decide)

/-! ## Helper lemmas for the accumulation loop -/

theorem foldl_append_shift (l : List String) (a b : String) :
    List.foldl (fun x y => x ++ y) (a ++ b) l =
      a ++ List.foldl (fun x y => x ++ y) b l := by
  induction l generalizing b with
  | nil => rfl
  | cons t ts ih =>
    simp only [List.foldl_cons]
    rw [String.append_assoc, ih]

theorem concat_frags_cons (f : String) (fs : List String) :
    concat_frags (f :: fs) = f ++ concat_frags fs := by
  unfold concat_frags
  simp only [List.foldl_cons]
  have h : "" ++ f = f ++ "" := by simp
  rw [h, foldl_append_shift]

theorem accum_step_eq (acc : String) (c : Chunk) :
    accum_step acc c = acc ++ chunk_fragment c := by
  rcases c with ⟨co⟩
  cases co with
  | none => simp [accum_step, chunk_fragment]
  | some cs =>
    cases cs with
    | nil => simp [accum_step, chunk_fragment]
    | cons ch rest =>
      rcases ch with ⟨dopt⟩
      cases dopt with
      | none => simp [accum_step, chunk_fragment]
      | some d =>
        rcases d with ⟨copt⟩
        cases copt with
        | none => simp [accum_step, chunk_fragment]
        | some t =>
          by_cases ht : t = "" <;> simp [accum_step, chunk_fragment, ht]

theorem accum_foldl (stream : List Chunk) (acc : String) :
    List.foldl accum_step acc stream =
      acc ++ concat_frags (stream.map chunk_fragment) := by
  induction stream generalizing acc with
  | nil => simp [concat_frags]
  | cons c cs ih =>
    simp only [List.foldl_cons, List.map_cons]
    rw [accum_step_eq, ih, concat_frags_cons, String.append_assoc]

/-! ## Claim theorems: analysis pipeline -/

/-- C5: the accumulation loop produces exactly the in-order concatenation
of the fragments the stream yields — no reordering, no deduplication, no
extra characters; in particular the stream yielding "Hel" then "lo"
accumulates to "Hello". -/
theorem accumulate_stream_is_concat :
    accumulate_stream [mkChunk "Hel", mkChunk "lo"] = "Hello" ∧
    (∀ frags : List String,
      accumulate_stream (frags.map mkChunk) = concat_frags frags) ∧
    (∀ stream : List Chunk,
      accumulate_stream stream = concat_frags (stream.map chunk_fragment)) := by
  have hgen : ∀ stream : List Chunk,
      accumulate_stream stream = concat_frags (stream.map chunk_fragment) := by
    intro stream
    unfold accumulate_stream
    rw [accum_foldl]
    simp
  have hmap : ∀ frags : List String,
      (frags.map mkChunk).map chunk_fragment = frags := by
    intro frags
    induction frags with
    | nil => rfl
    | cons f fs ih => simp [mkChunk, chunk_fragment, ih]
  refine ⟨?_, fun frags => ?_, hgen⟩
  · rfl
  · rw [hgen, hmap]

/-- C7: `APIClient` construction fails with the missing-key `ValueError`
when the key is absent (falsy) in both the constructor argument and the
environment — before any transport object is consulted — and succeeds
whenever a non-empty key is passed. -/
theorem apiclient_key_validation :
    (∀ envKey : Option String, truthyStr envKey = false →
       APIClient.make none envKey = .error missingKeyMsg) ∧
    (∀ (k : String) (envKey : Option String), k ≠ "" →
       APIClient.make (some k) envKey = .ok ⟨k, defaultModel⟩) := by
  constructor
  · intro envKey henv
    have h0 : py_or none envKey = envKey := rfl
    simp [APIClient.make, h0, henv]
  · intro k envKey hk
    simp [APIClient.make, py_or, truthyStr, hk]

theorem apiclient_key_validation_witness :
    APIClient.make none none = .error missingKeyMsg ∧
    APIClient.make (some "tok-123") none = .ok ⟨"tok-123", defaultModel⟩ :=
  ⟨apiclient_key_validation.1 none (by rfl),
   apiclient_key_validation.2 "tok-123" none (by decide)⟩

/-- C8: every execution of the background task delivers exactly one
outcome to the UI — a single `finished` or a single `error` emission,
never both, never zero, never more. -/
theorem run_exactly_one_emission (t : Transport) (enc : Encoder)
    (api_key envKey : Option String) (image : Option Image)
    (prompt : String) :
    ∃ em : Emission,
      AnalysisWorker.run t enc api_key envKey image prompt = [em] := by
  unfold AnalysisWorker.run
  cases APIClient.make api_key envKey <;> cases image <;> exact ⟨_, rfl⟩

/-- C2: an exception raised by the transport (at the `create` call or
mid-stream during accumulation) inside `analyze_image` or
`send_text_prompt` is caught and becomes a failure-outcome string that
carries the exception's message, and `AnalysisWorker.run` always returns
a single emission — no exception propagates uncaught out of the task. -/
theorem transport_failure_captured (t : Transport) (enc : Encoder)
    (img : Image) (prompt e img_str : String) :
    (enc img = .ok img_str →
       streamFails t (analyze_messages prompt img_str) e →
       analyze_image t enc img prompt = "Error analyzing image: " ++ e) ∧
    (streamFails t (text_messages prompt) e →
       send_text_prompt t prompt = "Error sending prompt: " ++ e) ∧
    (∀ (api_key envKey : Option String) (image : Option Image),
       ∃ em : Emission,
         AnalysisWorker.run t enc api_key envKey image prompt = [em]) := by
  refine ⟨?_, ?_, ?_⟩
  · intro henc hfail
    rcases hfail with h | ⟨resp, hok, hf⟩
    · simp [analyze_image, henc, h]
    · simp [analyze_image, henc, hok, hf]
  · intro hfail
    rcases hfail with h | ⟨resp, hok, hf⟩
    · simp [send_text_prompt, h]
    · simp [send_text_prompt, hok, hf]
  · intro api_key envKey image
    unfold AnalysisWorker.run
    cases APIClient.make api_key envKey <;> cases image <;> exact ⟨_, rfl⟩

theorem transport_failure_captured_witness :
    analyze_image tFailMid encOK sampleImage "explain"
      = "Error analyzing image: connection reset" ∧
    send_text_prompt tFailMid "explain"
      = "Error sending prompt: connection reset" :=
  ⟨(transport_failure_captured tFailMid encOK sampleImage "explain"
      "connection reset" "QUJD").1 rfl (Or.inr ⟨_, rfl, rfl⟩),
   (transport_failure_captured tFailMid encOK sampleImage "explain"
      "connection reset" "QUJD").2.1 (Or.inr ⟨_, rfl, rfl⟩)⟩

/-- C6: with no image the worker takes the text-only path: the result does
not depend on the image encoder at all, the only request sent is the
text payload, and that payload carries just the prompt string (with the
fixed literal suffix) and no image part; with an image present the
request carries both the prompt and the encoded image as a data URI. -/
theorem text_only_path (t : Transport) (api_key envKey : Option String)
    (prompt : String) (c : APIClient)
    (hmk : APIClient.make api_key envKey = .ok c) :
    (∀ enc : Encoder,
       AnalysisWorker.run t enc api_key envKey none prompt =
         [.finished (send_text_prompt t prompt)]) ∧
    (∀ enc enc2 : Encoder,
       AnalysisWorker.run t enc api_key envKey none prompt =
         AnalysisWorker.run t enc2 api_key envKey none prompt) ∧
    (∀ t2 : Transport,
       t2.create (text_messages prompt) = t.create (text_messages prompt) →
       send_text_prompt t2 prompt = send_text_prompt t prompt) ∧
    ((text_messages prompt).map Message.content
       = [MsgContent.str (prompt ++ "concisely.")]) ∧
    (∀ (enc : Encoder) (img : Image),
       AnalysisWorker.run t enc api_key envKey (some img) prompt =
         [.finished (analyze_image t enc img prompt)]) ∧
    (∀ img_str : String,
       (analyze_messages prompt img_str).map Message.content
         = [MsgContent.parts [.text prompt,
             .image_url ("data:image/png;base64," ++ img_str)]]) := by
  refine ⟨?_, ?_, ?_, ?_, ?_, ?_⟩
  · intro enc
    unfold AnalysisWorker.run
    rw [hmk]
  · intro enc enc2
    unfold AnalysisWorker.run
    rw [hmk]
  · intro t2 hsame
    unfold send_text_prompt
    rw [hsame]
  · rfl
  · intro enc img
    unfold AnalysisWorker.run
    rw [hmk]
  · intro img_str
    rfl

theorem text_only_path_witness :
    AnalysisWorker.run tHello encBad (some "tok-123") none none "explain this"
      = [.finished (send_text_prompt tHello "explain this")] ∧
    (text_messages "explain this").map Message.content
      = [MsgContent.str ("explain this" ++ "concisely.")] :=
  ⟨(text_only_path tHello (some "tok-123") none "explain this"
      ⟨"tok-123", defaultModel⟩ (by rfl)).1 encBad,
   (text_only_path tHello (some "tok-123") none "explain this"
      ⟨"tok-123", defaultModel⟩ (by rfl)).2.2.2.1⟩

/-- C10: a transport or encoding failure inside `analyze_image` or
`send_text_prompt` reaches the UI through the `finished` signal as a
string beginning with "Error", never through the `error` signal; the
`error` signal fires only when an exception escapes inside
`AnalysisWorker.run` itself, i.e. exactly when `APIClient` construction
fails, and it then carries that exception's message. -/
theorem failure_via_finished_signal (t : Transport) (enc : Encoder)
    (api_key envKey : Option String) (img : Image) (prompt e : String)
    (c : APIClient) (hmk : APIClient.make api_key envKey = .ok c) :
    ((∀ img_str : String, enc img = .ok img_str →
        streamFails t (analyze_messages prompt img_str) e →
        AnalysisWorker.run t enc api_key envKey (some img) prompt =
          [.finished ("Error analyzing image: " ++ e)]) ∧
     (enc img = .error e →
        AnalysisWorker.run t enc api_key envKey (some img) prompt =
          [.finished ("Error analyzing image: " ++ e)]) ∧
     (streamFails t (text_messages prompt) e →
        AnalysisWorker.run t enc api_key envKey none prompt =
          [.finished ("Error sending prompt: " ++ e)]) ∧
     (∃ rest, "Error analyzing image: " ++ e = "Error" ++ rest) ∧
     (∃ rest, "Error sending prompt: " ++ e = "Error" ++ rest)) ∧
    (∀ (ak ek : Option String) (image : Option Image) (m : String),
       AnalysisWorker.run t enc ak ek image prompt = [.error m] →
       APIClient.make ak ek = .error m) := by
  constructor
  · refine ⟨?_, ?_, ?_, ?_, ?_⟩
    · intro img_str henc hfail
      rcases hfail with h | ⟨resp, hok, hf⟩
      · simp [AnalysisWorker.run, hmk, analyze_image, henc, h]
      · simp [AnalysisWorker.run, hmk, analyze_image, henc, hok, hf]
    · intro henc
      simp [AnalysisWorker.run, hmk, analyze_image, henc]
    · intro hfail
      rcases hfail with h | ⟨resp, hok, hf⟩
      · simp [AnalysisWorker.run, hmk, send_text_prompt, h]
      · simp [AnalysisWorker.run, hmk, send_text_prompt, hok, hf]
    · exact ⟨" analyzing image: " ++ e, by rw [← String.append_assoc]; exact rfl⟩
    · exact ⟨" sending prompt: " ++ e, by rw [← String.append_assoc]; exact rfl⟩
  · intro ak ek image m hrun
    revert hrun
    unfold AnalysisWorker.run
    cases hm : APIClient.make ak ek with
    | error msg => cases image <;> simp_all
    | ok cl => cases image <;> simp

theorem failure_via_finished_signal_witness :
    AnalysisWorker.run tFailMid encOK (some "tok-123") none
        (some sampleImage) "explain"
      = [.finished ("Error analyzing image: " ++ "connection reset")] ∧
    APIClient.make none none = .error missingKeyMsg :=
  ⟨((failure_via_finished_signal tFailMid encOK (some "tok-123") none
      sampleImage "explain" "connection reset" ⟨"tok-123", defaultModel⟩
      (by rfl)).1.1 "QUJD" rfl (Or.inr ⟨_, rfl, rfl⟩)),
   ((failure_via_finished_signal tFailMid encOK (some "tok-123") none
      sampleImage "explain" "connection reset" ⟨"tok-123", defaultModel⟩
      (by rfl)).2 none none none missingKeyMsg rfl)⟩
